import Mathlib

/-
Verification of src/utils.py (Amazon Bedrock model-comparison utilities).

The file embeds the two pure aspects of the code:
  * `build_converse_params` models lines 44-73 of utils.py: construction of
    the request record passed to the remote converse endpoint.
  * `extract_text` models lines 78-88: extraction of the answer text from
    the content-block sequence of the response.
  * `converse` composes the two around an abstract client, mirroring the
    whole function body (the network call itself is the abstract client).
  * `calculate_monthly_cost` models lines 91-106; a checked variant makes
    the (only) possible Python arithmetic failure, division by zero,
    explicit so that totality is a real statement.

Python runtime errors that the extraction code can raise are reified in
`PyError`; dictionary fields that may be missing become `Option` fields;
Python ints and floats become `Int` and `Rat` (exact arithmetic).
-/

namespace Bedrock

/-- Runtime failures the embedded code can exhibit: list index out of range,
missing dictionary key, and division by zero. -/
inductive PyError where
  | indexError
  | keyError
  | zeroDivisionError
deriving DecidableEq, Repr

/-- One block of the response content sequence. The code only ever tests for
and reads the text key; reasoningContent stands for the other keys a
reasoning block may carry. -/
structure ContentBlock where
  text : Option String
  reasoningContent : Option String
deriving DecidableEq, Repr

/-- A record holding a single text field, as used in messages and in the
system instruction list. -/
structure TextBlock where
  text : String
deriving DecidableEq, Repr

/-- One chat message of the request: a role and a content list. -/
structure Message where
  role : String
  content : List TextBlock
deriving DecidableEq, Repr

/-- The nested thinking sub-config attached for Claude models. -/
structure Thinking where
  type : String
  budget : Int
deriving DecidableEq, Repr

/-- The inference configuration of the request (utils.py lines 44-47 plus
the optional thinking entry added at lines 69-73). -/
structure InferenceConfig where
  temperature : Rat
  maxTokens : Int
  thinking : Option Thinking
deriving DecidableEq, Repr

/-- The vendor-extension record attached for GPT-OSS models. -/
structure ExtensionFields where
  reasoning_effort : String
deriving DecidableEq, Repr

/-- The full request record built by converse (utils.py lines 50-60, with
the optional extension of lines 62-66). -/
structure ConverseParams where
  modelId : String
  messages : List Message
  system : List TextBlock
  inferenceConfig : InferenceConfig
  additionalModelRequestFields : Option ExtensionFields
deriving DecidableEq, Repr

/-- Does the character list start with the first list? (helper for the
Python substring test). -/
def charsMatchAt : List Char → List Char → Bool
  | [], _ => true
  | _ :: _, [] => false
  | a :: as, b :: bs => a == b && charsMatchAt as bs

/-- Does the second character list contain the first as a contiguous run?
(helper for the Python substring test). -/
def charsContain (sub : List Char) : List Char → Bool
  | [] => charsMatchAt sub []
  | c :: rest => charsMatchAt sub (c :: rest) || charsContain sub rest

/-- Python membership test sub in s on strings: contiguous substring. -/
def strContainsSub (s sub : String) : Bool :=
  charsContain sub.data s.data

/-- Python str.lower() restricted to the ASCII identifiers the code meets:
lowercases every character of the string. Defined by structural recursion
over the character list so that concrete instances evaluate. -/
def strLower (s : String) : String :=
  String.mk (s.data.map Char.toLower)

/-- Python truthiness of an optional string: None and the empty string are
falsy, every other string is truthy. This is the test the code applies to
reasoning_effort at line 63. -/
def pyTruthy : Option String → Bool
  | none => false
  | some s => !(s == "")

/-- Embeds utils.py lines 44-73: builds inference_config and
converse_params, then conditionally attaches the reasoning_effort
extension (lines 62-66) and the thinking sub-config (lines 68-73). -/
def build_converse_params (model_id prompt system_prompt : String)
    (temperature : Rat) (max_tokens : Int)
    (reasoning_effort : Option String) (thinking_budget : Option Int) :
    ConverseParams :=
  let inference_config : InferenceConfig :=
    { temperature := temperature, maxTokens := max_tokens, thinking := none }
  let base : ConverseParams :=
    { modelId := model_id
      messages := [{ role := "user", content := [{ text := prompt }] }]
      system := [{ text := system_prompt }]
      inferenceConfig := inference_config
      additionalModelRequestFields := none }
  let withReasoning : ConverseParams :=
    if (strContainsSub (strLower model_id) "openai"
          || strContainsSub (strLower model_id) "gpt")
        && pyTruthy reasoning_effort then
      { base with
          additionalModelRequestFields := some { reasoning_effort := reasoning_effort.getD "" } }
    else base
  if strContainsSub (strLower model_id) "claude" && thinking_budget.isSome then
    { withReasoning with
        inferenceConfig := { withReasoning.inferenceConfig with
          thinking := some { type := "enabled", budget := thinking_budget.getD 0 } } }
  else withReasoning

/-- Embeds content[0][text] (utils.py line 88): IndexError on an empty
list, KeyError when the first block lacks the text field. -/
def firstElementText : List ContentBlock → Except PyError String
  | [] => Except.error PyError.indexError
  | b :: _ =>
    match b.text with
    | some t => Except.ok t
    | none => Except.error PyError.keyError

/-- Embeds the scan loop of utils.py lines 83-85: the text of the first
block carrying a text field, none when no block does. -/
def findFirstText : List ContentBlock → Option String
  | [] => none
  | b :: rest =>
    match b.text with
    | some t => some t
    | none => findFirstText rest

/-- Embeds utils.py lines 78-88: when the content sequence has more than
one element, return the first text found by the scan; otherwise, and when
the scan finds nothing, fall through to content[0][text]. -/
def extract_text (content : List ContentBlock) : Except PyError String :=
  if content.length > 1 then
    match findFirstText content with
    | some t => Except.ok t
    | none => firstElementText content
  else
    firstElementText content

/-- The message part of the response record. -/
structure ResponseMessage where
  content : List ContentBlock
deriving Repr

/-- The output part of the response record. -/
structure ResponseOutput where
  message : ResponseMessage
deriving Repr

/-- The response record returned by the remote endpoint. -/
structure Response where
  output : ResponseOutput
deriving Repr

/-- The whole converse function (utils.py lines 17-88): build the request,
perform the (abstracted) remote call, extract the answer text. -/
def converse (client : ConverseParams → Response)
    (model_id prompt system_prompt : String)
    (temperature : Rat) (max_tokens : Int)
    (reasoning_effort : Option String) (thinking_budget : Option Int) :
    Except PyError String :=
  let params := build_converse_params model_id prompt system_prompt
      temperature max_tokens reasoning_effort thinking_budget
  let response := client params
  extract_text response.output.message.content

/-- Embeds utils.py lines 91-106 over exact rational arithmetic. -/
def calculate_monthly_cost (requests_per_day avg_input_tokens
    avg_output_tokens input_price_per_1k output_price_per_1k : Rat) : Rat :=
  let monthly_requests := requests_per_day * 30
  let monthly_input_tokens := monthly_requests * avg_input_tokens / 1000
  let monthly_output_tokens := monthly_requests * avg_output_tokens / 1000
  monthly_input_tokens * input_price_per_1k +
    monthly_output_tokens * output_price_per_1k

/-- Python division, fallibly: raises ZeroDivisionError on a zero divisor
and otherwise yields the exact quotient. -/
def pydiv (a b : Rat) : Except PyError Rat :=
  if b = 0 then Except.error PyError.zeroDivisionError else Except.ok (a / b)

/-- The cost computation with every fallible Python operation made
explicit: both divisions go through pydiv; multiplication and addition on
numbers cannot fail. -/
def calculate_monthly_cost_checked (requests_per_day avg_input_tokens
    avg_output_tokens input_price_per_1k output_price_per_1k : Rat) :
    Except PyError Rat := do
  let monthly_requests := requests_per_day * 30
  let monthly_input_tokens ← pydiv (monthly_requests * avg_input_tokens) 1000
  let monthly_output_tokens ← pydiv (monthly_requests * avg_output_tokens) 1000
  Except.ok (monthly_input_tokens * input_price_per_1k +
    monthly_output_tokens * output_price_per_1k)

/- ------------------------------------------------------------------ -/
/- Theorems -/
/- ------------------------------------------------------------------ -/

/-- Claim C7: on an empty content sequence, converse fails with an
out-of-bounds (IndexError) access rather than returning a value; shown for
a call through a client whose response carries an empty content list. -/
theorem converse_empty_content_index_error :
    converse (fun _ => { output := { message := { content := [] } } })
      "anthropic.claude-3" "hi" "You are a helpful assistant." 0 2000
      none none = Except.error PyError.indexError := rfl

/-- Claim C8: the cost estimator is total and never fails: with every
fallible Python operation reified, it returns ok of the pure result on all
inputs, whatever their sign or magnitude. -/
theorem calculate_monthly_cost_never_fails
    (r i o p q : Rat) :
    calculate_monthly_cost_checked r i o p q =
      Except.ok (calculate_monthly_cost r i o p q) := by
  simp [calculate_monthly_cost_checked, calculate_monthly_cost, pydiv]
  rfl

/-- Claim C3: the cost estimator computes exactly
(r*30*i/1000)*p + (r*30*o/1000)*q; zero requests give zero; positive usage
at negative prices gives a negative result; and the worked spec example
evaluates to 13.5 = 27/2. -/
theorem calculate_monthly_cost_formula :
    (∀ r i o p q : Rat,
       calculate_monthly_cost r i o p q =
         (r * 30 * i / 1000) * p + (r * 30 * o / 1000) * q) ∧
    (∀ i o p q : Rat, calculate_monthly_cost 0 i o p q = 0) ∧
    (∀ r i o p q : Rat, 0 < r → 0 < i → 0 < o → p < 0 → q < 0 →
       calculate_monthly_cost r i o p q < 0) ∧
    calculate_monthly_cost 100 500 200 (3 / 1000) (15 / 1000) = 27 / 2 := by
  refine ⟨fun r i o p q => by simp [calculate_monthly_cost], ?_, ?_, ?_⟩
  · intro i o p q
    simp [calculate_monthly_cost]
  · intro r i o p q hr hi ho hp hq
    have h1 : (0 : Rat) < r * 30 * i / 1000 := by positivity
    have h2 : (0 : Rat) < r * 30 * o / 1000 := by positivity
    have hm1 : r * 30 * i / 1000 * p < 0 := mul_neg_of_pos_of_neg h1 hp
    have hm2 : r * 30 * o / 1000 * q < 0 := mul_neg_of_pos_of_neg h2 hq
    have hform : calculate_monthly_cost r i o p q =
        (r * 30 * i / 1000) * p + (r * 30 * o / 1000) * q := by
      simp [calculate_monthly_cost]
    rw [hform]
    linarith
  · norm_num [calculate_monthly_cost]

/-- Claim C3 witness: the negative-price clause instantiated at concrete
positive usage and negative prices. -/
theorem calculate_monthly_cost_formula_witness :
    calculate_monthly_cost 1 1 1 (-1) (-1) < 0 :=
  calculate_monthly_cost_formula.2.2.1 1 1 1 (-1) (-1)
    (by norm_num) (by norm_num) (by norm_num) (by norm_num) (by norm_num)

/-- When every block before b lacks the text field, the scan finds the text
of b. -/
lemma findFirstText_append_of_all_none (pre : List ContentBlock)
    (b : ContentBlock) (post : List ContentBlock) (t : String)
    (hpre : ∀ x ∈ pre, x.text = none) (hb : b.text = some t) :
    findFirstText (pre ++ b :: post) = some t := by
  induction pre with
  | nil => simp [findFirstText, hb]
  | cons a rest ih =>
    have ha : a.text = none := hpre a (by simp)
    simpa [findFirstText, ha] using ih (fun x hx => hpre x (by simp [hx]))

/-- When no block carries the text field, the scan finds nothing. -/
lemma findFirstText_all_none (l : List ContentBlock)
    (h : ∀ x ∈ l, x.text = none) : findFirstText l = none := by
  induction l with
  | nil => rfl
  | cons a rest ih =>
    have ha : a.text = none := h a (by simp)
    simpa [findFirstText, ha] using ih (fun x hx => h x (by simp [hx]))

/-- Claim C1: on a non-empty content sequence, a singleton yields the text
field of its only element, and a sequence of more than one element yields
the text of the first block (in scan order from index 0) whose record
carries a text field; the block list is written pre ++ b :: post with every
block of pre lacking the field. -/
theorem extract_text_first_text_block (content : List ContentBlock) :
    (∀ b t, content = [b] → b.text = some t →
       extract_text content = Except.ok t) ∧
    (∀ pre b post t, content = pre ++ b :: post → content.length > 1 →
       (∀ x ∈ pre, x.text = none) → b.text = some t →
       extract_text content = Except.ok t) := by
  constructor
  · rintro b t rfl hb
    simp [extract_text, firstElementText, hb]
  · rintro pre b post t rfl hlen hpre hb
    have hf := findFirstText_append_of_all_none pre b post t hpre hb
    unfold extract_text
    rw [if_pos hlen, hf]

/-- Claim C1 witness: the spec example, a reasoning block without a text
field followed by the answer block, yields the answer. -/
theorem extract_text_first_text_block_witness :
    extract_text [{ text := none, reasoningContent := some "trace" },
      { text := some "answer", reasoningContent := none }] =
      Except.ok "answer" :=
  (extract_text_first_text_block
      [{ text := none, reasoningContent := some "trace" },
        { text := some "answer", reasoningContent := none }]).2
    [{ text := none, reasoningContent := some "trace" }]
    { text := some "answer", reasoningContent := none } [] "answer"
    rfl (by decide) (by decide) rfl

/-- Claim C2 counterexample: on a two-element sequence whose first block
carries a text field, the scan returns the text of the FIRST element, and
no block outside the first position carries that text; so the returned
block is the leading one, contradicting the claim that a leading first
block is never the one returned. -/
theorem extract_text_returns_leading_block :
    extract_text [{ text := some "first", reasoningContent := none },
      { text := some "second", reasoningContent := none }] =
      Except.ok "first" ∧
    ([{ text := some "first", reasoningContent := none },
      { text := some "second", reasoningContent := none }] :
        List ContentBlock).length > 1 ∧
    ∀ x ∈ ([{ text := some "first", reasoningContent := none },
      { text := some "second", reasoningContent := none }] :
        List ContentBlock).tail, x.text ≠ some "first" := by
  refine ⟨rfl, by decide, by decide⟩

/-- Claim C2 (amended): the scan does not exclude index 0: on a sequence of
more than one element whose first block carries a text field, converse
returns the text of that first block. -/
theorem extract_text_leading_text_block_returned (b : ContentBlock)
    (rest : List ContentBlock) (t : String)
    (hne : rest ≠ []) (hb : b.text = some t) :
    extract_text (b :: rest) = Except.ok t := by
  have hlen : (b :: rest).length > 1 := by
    cases rest with
    | nil => exact absurd rfl hne
    | cons c cs => simp [List.length_cons]
  have hf : findFirstText (b :: rest) = some t := by
    simp [findFirstText, hb]
  unfold extract_text
  rw [if_pos hlen, hf]

/-- Claim C2 (amended) witness: a leading answer block followed by a
reasoning block; the leading text is returned. -/
theorem extract_text_leading_text_block_returned_witness :
    extract_text [{ text := some "lead", reasoningContent := none },
      { text := none, reasoningContent := some "r" }] = Except.ok "lead" :=
  extract_text_leading_text_block_returned
    { text := some "lead", reasoningContent := none }
    [{ text := none, reasoningContent := some "r" }] "lead"
    (by decide) rfl

/-- Claim C10: on a sequence of more than one element none of whose blocks
carries a text field, the scan falls through and the function reads the
text field of the first element, failing with a missing-key error. -/
theorem extract_text_no_text_key_error (content : List ContentBlock)
    (hlen : content.length > 1) (hall : ∀ x ∈ content, x.text = none) :
    extract_text content = Except.error PyError.keyError := by
  have hf := findFirstText_all_none content hall
  cases content with
  | nil => simp at hlen
  | cons b rest =>
    have hb : b.text = none := hall b (by simp)
    unfold extract_text
    rw [if_pos hlen, hf]
    simp [firstElementText, hb]

/-- Claim C10 witness: two blocks, both without a text field, give the
missing-key error. -/
theorem extract_text_no_text_key_error_witness :
    extract_text [{ text := none, reasoningContent := some "r1" },
      { text := none, reasoningContent := some "r2" }] =
      Except.error PyError.keyError :=
  extract_text_no_text_key_error
    [{ text := none, reasoningContent := some "r1" },
      { text := none, reasoningContent := some "r2" }]
    (by decide) (by decide)

/-- The two conditional extensions never touch the message list, the
system list, the model id, the temperature, or the token limit. -/
lemma build_converse_params_base (model_id prompt system_prompt : String)
    (temperature : Rat) (max_tokens : Int)
    (re : Option String) (tb : Option Int) :
    (build_converse_params model_id prompt system_prompt temperature
        max_tokens re tb).modelId = model_id ∧
    (build_converse_params model_id prompt system_prompt temperature
        max_tokens re tb).messages =
      [{ role := "user", content := [{ text := prompt }] }] ∧
    (build_converse_params model_id prompt system_prompt temperature
        max_tokens re tb).system = [{ text := system_prompt }] ∧
    (build_converse_params model_id prompt system_prompt temperature
        max_tokens re tb).inferenceConfig.temperature = temperature ∧
    (build_converse_params model_id prompt system_prompt temperature
        max_tokens re tb).inferenceConfig.maxTokens = max_tokens := by
  unfold build_converse_params
  by_cases h1 : ((strContainsSub (strLower model_id) "openai"
        || strContainsSub (strLower model_id) "gpt")
      && pyTruthy re) = true <;>
    by_cases h2 : (strContainsSub (strLower model_id) "claude"
        && tb.isSome) = true <;>
    simp [h1, h2]

/-- The thinking entry of the built inference configuration, as a single
conditional expression. -/
lemma build_converse_params_thinking (model_id prompt system_prompt : String)
    (temperature : Rat) (max_tokens : Int)
    (re : Option String) (tb : Option Int) :
    (build_converse_params model_id prompt system_prompt temperature
        max_tokens re tb).inferenceConfig.thinking =
      if strContainsSub (strLower model_id) "claude" && tb.isSome then
        some { type := "enabled", budget := tb.getD 0 }
      else none := by
  unfold build_converse_params
  by_cases h1 : ((strContainsSub (strLower model_id) "openai"
        || strContainsSub (strLower model_id) "gpt")
      && pyTruthy re) = true <;>
    by_cases h2 : (strContainsSub (strLower model_id) "claude"
        && tb.isSome) = true <;>
    simp [h1, h2]

/-- The vendor-extension entry of the built request, as a single
conditional expression. -/
lemma build_converse_params_extension (model_id prompt system_prompt : String)
    (temperature : Rat) (max_tokens : Int)
    (re : Option String) (tb : Option Int) :
    (build_converse_params model_id prompt system_prompt temperature
        max_tokens re tb).additionalModelRequestFields =
      if (strContainsSub (strLower model_id) "openai"
            || strContainsSub (strLower model_id) "gpt")
          && pyTruthy re then
        some { reasoning_effort := re.getD "" }
      else none := by
  unfold build_converse_params
  by_cases h1 : ((strContainsSub (strLower model_id) "openai"
        || strContainsSub (strLower model_id) "gpt")
      && pyTruthy re) = true <;>
    by_cases h2 : (strContainsSub (strLower model_id) "claude"
        && tb.isSome) = true <;>
    simp [h1, h2]

/-- Claim C9: every built request holds exactly one user message carrying
the prompt text, exactly one system block carrying the system prompt, and
an inference configuration whose temperature and token limit are the given
values, whatever the model id and the optional reasoning parameters. -/
theorem converse_request_shape (model_id prompt system_prompt : String)
    (temperature : Rat) (max_tokens : Int)
    (re : Option String) (tb : Option Int) :
    (build_converse_params model_id prompt system_prompt temperature
        max_tokens re tb).messages =
      [{ role := "user", content := [{ text := prompt }] }] ∧
    (build_converse_params model_id prompt system_prompt temperature
        max_tokens re tb).system = [{ text := system_prompt }] ∧
    (build_converse_params model_id prompt system_prompt temperature
        max_tokens re tb).inferenceConfig.temperature = temperature ∧
    (build_converse_params model_id prompt system_prompt temperature
        max_tokens re tb).inferenceConfig.maxTokens = max_tokens :=
  (build_converse_params_base model_id prompt system_prompt temperature
    max_tokens re tb).2

/-- Claim C4: the built inference configuration holds a thinking entry iff
the lowercase model id contains claude and a thinking budget was supplied
(any non-absent value, including zero); when attached its value is type
enabled with the supplied budget, and with the budget absent no thinking
entry is present. -/
theorem converse_thinking_config (model_id prompt system_prompt : String)
    (temperature : Rat) (max_tokens : Int)
    (re : Option String) (tb : Option Int) :
    ((build_converse_params model_id prompt system_prompt temperature
        max_tokens re tb).inferenceConfig.thinking ≠ none ↔
      (strContainsSub (strLower model_id) "claude" = true ∧ tb ≠ none)) ∧
    (∀ b : Int, tb = some b →
      strContainsSub (strLower model_id) "claude" = true →
      (build_converse_params model_id prompt system_prompt temperature
          max_tokens re tb).inferenceConfig.thinking =
        some { type := "enabled", budget := b }) ∧
    (tb = none →
      (build_converse_params model_id prompt system_prompt temperature
          max_tokens re tb).inferenceConfig.thinking = none) := by
  rw [build_converse_params_thinking]
  refine ⟨?_, ?_, ?_⟩
  · by_cases hc : strContainsSub (strLower model_id) "claude" = true <;>
      cases tb <;> simp [hc]
  · rintro b rfl hc
    simp [hc]
  · rintro rfl
    by_cases hc : strContainsSub (strLower model_id) "claude" = true <;>
      simp [hc]

/-- Claim C4 witness: a claude model id with budget 1024 gets the thinking
entry with type enabled and budget 1024. -/
theorem converse_thinking_config_witness :
    (build_converse_params "anthropic.claude-3-sonnet" "p" "s" 0 2000
        none (some 1024)).inferenceConfig.thinking =
      some { type := "enabled", budget := 1024 } :=
  (converse_thinking_config "anthropic.claude-3-sonnet" "p" "s" 0 2000
      none (some 1024)).2.1 1024 rfl (by decide)

/-- Claim C5 counterexample: with a model id containing gpt and a
reasoning-effort value supplied as the empty string (supplied, hence not
absent), the extension field is nonetheless absent: line 63 tests Python
truthiness of the value, not its presence. -/
theorem converse_reasoning_effort_empty_dropped :
    (build_converse_params "gpt-oss" "p" "s" 0 2000 (some "")
        none).additionalModelRequestFields = none ∧
    strContainsSub (strLower "gpt-oss") "gpt" = true ∧
    (some "" : Option String) ≠ none := by
  refine ⟨?_, rfl, by simp⟩
  rw [build_converse_params_extension]
  rfl

/-- Claim C5 (amended): the extension field is present iff the lowercase
model id contains openai or gpt AND the supplied reasoning-effort string is
truthy (supplied and non-empty); when attached it equals the supplied
value, and with the parameter omitted it is absent. -/
theorem converse_reasoning_effort_field (model_id prompt system_prompt :
    String) (temperature : Rat) (max_tokens : Int)
    (re : Option String) (tb : Option Int) :
    ((build_converse_params model_id prompt system_prompt temperature
        max_tokens re tb).additionalModelRequestFields ≠ none ↔
      ((strContainsSub (strLower model_id) "openai"
          || strContainsSub (strLower model_id) "gpt") = true ∧
        pyTruthy re = true)) ∧
    (∀ s : String, re = some s → s ≠ "" →
      (strContainsSub (strLower model_id) "openai"
          || strContainsSub (strLower model_id) "gpt") = true →
      (build_converse_params model_id prompt system_prompt temperature
          max_tokens re tb).additionalModelRequestFields =
        some { reasoning_effort := s }) ∧
    (re = none →
      (build_converse_params model_id prompt system_prompt temperature
          max_tokens re tb).additionalModelRequestFields = none) := by
  rw [build_converse_params_extension]
  refine ⟨⟨?_, ?_⟩, ?_, ?_⟩
  · intro hne
    by_cases h : ((strContainsSub (strLower model_id) "openai"
          || strContainsSub (strLower model_id) "gpt")
        && pyTruthy re) = true
    · exact (Bool.and_eq_true _ _).mp h
    · exact absurd (if_neg h) hne
  · rintro ⟨h1, h2⟩
    have h : ((strContainsSub (strLower model_id) "openai"
          || strContainsSub (strLower model_id) "gpt")
        && pyTruthy re) = true := by simp [h1, h2]
    rw [if_pos h]
    simp
  · rintro s rfl hs hm
    have ht : pyTruthy (some s) = true := by simp [pyTruthy, hs]
    have h : ((strContainsSub (strLower model_id) "openai"
          || strContainsSub (strLower model_id) "gpt")
        && pyTruthy (some s)) = true := by simp [hm, ht]
    rw [if_pos h]
    simp
  · rintro rfl
    have h : ¬ (((strContainsSub (strLower model_id) "openai"
          || strContainsSub (strLower model_id) "gpt")
        && pyTruthy (none : Option String)) = true) := by simp [pyTruthy]
    rw [if_neg h]

/-- Claim C5 (amended) witness: a gpt model id with reasoning effort high
gets the extension field with that value. -/
theorem converse_reasoning_effort_field_witness :
    (build_converse_params "gpt-oss" "p" "s" 0 2000 (some "high")
        none).additionalModelRequestFields =
      some { reasoning_effort := "high" } :=
  (converse_reasoning_effort_field "gpt-oss" "p" "s" 0 2000 (some "high")
      none).2.1 "high" rfl (by decide) (by decide)

/-- Claim C6 counterexample: a model id matching both substring tests, with
both optional parameters supplied (reasoning effort as the empty string,
budget 1024): the thinking sub-config is attached but the reasoning_effort
extension is not, so the request does not contain both. -/
theorem converse_both_supplied_missing_extension :
    (build_converse_params "gpt-claude" "p" "s" 0 2000 (some "")
        (some 1024)).additionalModelRequestFields = none ∧
    (build_converse_params "gpt-claude" "p" "s" 0 2000 (some "")
        (some 1024)).inferenceConfig.thinking =
      some { type := "enabled", budget := 1024 } ∧
    strContainsSub (strLower "gpt-claude") "gpt" = true ∧
    strContainsSub (strLower "gpt-claude") "claude" = true ∧
    (some "" : Option String) ≠ none ∧
    (some (1024 : Int) : Option Int) ≠ none := by
  refine ⟨?_, ?_, rfl, rfl, by simp, by simp⟩
  · rw [build_converse_params_extension]
    rfl
  · rw [build_converse_params_thinking]
    rfl

/-- Claim C6 (amended): the two extension rules are evaluated
independently: on a model id matching both substring tests, with a
non-empty reasoning-effort value and a thinking budget both supplied, the
built request carries both the extension field and the thinking
sub-config simultaneously. -/
theorem converse_both_extensions_attached (model_id prompt system_prompt :
    String) (temperature : Rat) (max_tokens : Int) (s : String) (b : Int)
    (hs : s ≠ "")
    (hm : (strContainsSub (strLower model_id) "openai"
        || strContainsSub (strLower model_id) "gpt") = true)
    (hc : strContainsSub (strLower model_id) "claude" = true) :
    (build_converse_params model_id prompt system_prompt temperature
        max_tokens (some s) (some b)).additionalModelRequestFields =
      some { reasoning_effort := s } ∧
    (build_converse_params model_id prompt system_prompt temperature
        max_tokens (some s) (some b)).inferenceConfig.thinking =
      some { type := "enabled", budget := b } := by
  constructor
  · rw [build_converse_params_extension]
    have ht : pyTruthy (some s) = true := by simp [pyTruthy, hs]
    have h : ((strContainsSub (strLower model_id) "openai"
          || strContainsSub (strLower model_id) "gpt")
        && pyTruthy (some s)) = true := by simp [hm, ht]
    rw [if_pos h]
    simp
  · rw [build_converse_params_thinking]
    have h : (strContainsSub (strLower model_id) "claude"
        && (some b).isSome) = true := by simp [hc]
    rw [if_pos h]
    simp

/-- Claim C6 (amended) witness: the hybrid id gpt-claude with effort high
and budget 1024 gets both extensions at once. -/
theorem converse_both_extensions_attached_witness :
    (build_converse_params "gpt-claude" "p" "s" 0 2000 (some "high")
        (some 1024)).additionalModelRequestFields =
      some { reasoning_effort := "high" } ∧
    (build_converse_params "gpt-claude" "p" "s" 0 2000 (some "high")
        (some 1024)).inferenceConfig.thinking =
      some { type := "enabled", budget := 1024 } :=
  converse_both_extensions_attached "gpt-claude" "p" "s" 0 2000 "high" 1024
    (by decide) (by decide) (by decide)

end Bedrock
